import Mathlib

/-!
Verification of the DAIS database handler (`src/py_scripts/db_handler.py`)
against its natural-language specification.

The Python module is shallowly embedded: query strings are lists of
characters, regex-based flag extraction is translated to explicit index
searches with the same leftmost-match semantics, and the stateful parts of
`run_query` (the adapter connection, file writes, the one-shot retry guard)
are modelled by explicit state passing over an oracle `Backend` record that
supplies the outcomes of the external I/O calls (connect, execute, directory
writability, the sibling-interpreter subprocess).  A `Trace` record counts
the observable side effects (adapter closes, output-file opens, temp-file
spools, subprocess invocations, execution attempts).
-/

set_option maxRecDepth 100000

namespace Dais

/-- Query text is modelled as a list of characters (Python `str`). -/
abbrev Chars := List Char

/-- Convert a Lean string literal to the character-list representation. -/
def str (s : String) : Chars := s.data

/-- Python whitespace (`str.split()` / regex `\s` over the ASCII range):
space, tab, newline, carriage return, vertical tab, form feed. -/
def isSpaceChar (c : Char) : Bool :=
  c == ' ' || c == '\t' || c == '\n' || c == '\r' || c == '\x0b' || c == '\x0c'

/-- Negation of `isSpaceChar` (regex `[^\s]`). -/
def notSpaceChar (c : Char) : Bool := !isSpaceChar c

/-- Python `str.strip()`: drop leading and trailing whitespace. -/
def pyStrip (s : Chars) : Chars :=
  ((s.dropWhile isSpaceChar).reverse.dropWhile isSpaceChar).reverse

/-- Python `str.lower()` (ASCII range, which is all the handler uses). -/
def pyLower (s : Chars) : Chars := s.map Char.toLower

/-- `leadsWith p s` holds when `p` is a prefix of `s` (Python `startswith`). -/
def leadsWith : Chars → Chars → Bool
  | [], _ => true
  | _ :: _, [] => false
  | p :: ps, c :: cs => p == c && leadsWith ps cs

/-- `hasSub pat s` holds when `pat` occurs as a contiguous substring of `s`
(Python `pat in s`). -/
def hasSub (pat : Chars) : Chars → Bool
  | [] => leadsWith pat []
  | c :: rest => leadsWith pat (c :: rest) || hasSub pat rest

/-- Helper for Python `str.split()`: accumulate the current token (reversed)
while scanning. -/
def pySplitAux : Chars → Chars → List Chars
  | [], acc => if acc.isEmpty then [] else [acc.reverse]
  | c :: rest, acc =>
    if isSpaceChar c then
      if acc.isEmpty then pySplitAux rest [] else acc.reverse :: pySplitAux rest []
    else pySplitAux rest (c :: acc)

/-- Python `str.split()` with no argument: split on whitespace runs,
discarding empty tokens. -/
def pySplit (s : Chars) : List Chars := pySplitAux s []

/-- The resolved query flags of `run_query` (its `flags` dict). -/
structure Flags where
  json : Bool
  csv : Bool
  noLimit : Bool
  output : Option Chars
deriving DecidableEq, Repr

/-- Whether an optionally-present character is whitespace (used for
looking just before and just after a flag occurrence). -/
def optSpace (o : Option Char) : Bool :=
  match o with
  | some c => isSpaceChar c
  | none => false

/-- One position `f` of `q` matches the regex `\s+FLAG(\s+|$)` used by
`pop_bool_flag` exactly when the flag text occurs at `f`, the character just
before `f` is whitespace, and the flag is followed by whitespace or the end
of the string.  (`re.search` reports the leftmost such occurrence; the
leading `\s+` then extends to the start of the whitespace run, which
`pop_bool_flag` reconstructs below.) -/
def flagMatchAt (flag q : Chars) (f : Nat) : Bool :=
  (f != 0)
    && optSpace (q.get? (f - 1))
    && leadsWith flag (q.drop f)
    && ((q.length == f + flag.length) || optSpace (q.get? (f + flag.length)))

/-- `pop_bool_flag` (db_handler.py lines 246-252): search for the regex
`\s+FLAG(\s+|$)`; on a match, remove the matched span (the whole whitespace
run before the flag, the flag, and the whitespace run after it) and replace
it with a single space. -/
def pop_bool_flag (q flag : Chars) : Chars × Bool :=
  match (List.range q.length).find? (fun f => flagMatchAt flag q f) with
  | none => (q, false)
  | some f =>
    let m := flag.length
    let k := ((q.take f).reverse.takeWhile isSpaceChar).length
    let j := ((q.drop (f + m)).takeWhile isSpaceChar).length
    (q.take (f - k) ++ [' '] ++ q.drop (f + m + j), true)

/-- The literal `--output` token. -/
def outTok : Chars := str "--output"

/-- One position `i` of `q` matches the regex `--output\s+([^\s]+)`:
the literal, then at least one whitespace character, then at least one
non-whitespace character. -/
def outputMatchAt (q : Chars) (i : Nat) : Bool :=
  leadsWith outTok (q.drop i)
    && (((q.drop (i + outTok.length)).takeWhile isSpaceChar).length != 0)
    && (((q.drop
          (i + outTok.length
            + ((q.drop (i + outTok.length)).takeWhile isSpaceChar).length)).takeWhile
            notSpaceChar).length != 0)

/-- The `--output <path>` extraction of `run_query` (lines 238-243):
`re.search(r'--output\s+([^\s]+)', query)`; on a match the matched span is
removed (with no replacement space) and the captured token is the value. -/
def popOutputFlag (q : Chars) : Chars × Option Chars :=
  match (List.range q.length).find? (outputMatchAt q) with
  | none => (q, none)
  | some i =>
    let a := i + outTok.length
    let j := ((q.drop a).takeWhile isSpaceChar).length
    let v := (q.drop (a + j)).takeWhile notSpaceChar
    (q.take i ++ q.drop (a + j + v.length), some v)

/-- Flag extraction of `run_query` (lines 236-258): first the
`--output <path>` pair, then the three boolean flags in the order
`--json`, `--csv`, `--no-limit`. -/
def parseFlags (query : Chars) : Chars × Flags :=
  let p0 := popOutputFlag query
  let p1 := pop_bool_flag p0.1 (str "--json")
  let p2 := pop_bool_flag p1.1 (str "--csv")
  let p3 := pop_bool_flag p2.1 (str "--no-limit")
  (p3.1, Flags.mk p1.2 p2.2 p3.2 p0.2)

/-- The "hanging clause" keywords of `run_query` (line 265). -/
def hangingWords : List Chars :=
  [str "where", str "by", str "and", str "or", str "in", str "set", str "from"]

/-- The lowercased last whitespace-delimited token of a query
(`words[-1].lower() if words else ""`, line 267). -/
def lastWordLower (s : Chars) : Chars :=
  match (pySplit s).getLast? with
  | some w => pyLower w
  | none => []

/-- The safety-limit step of `run_query` (lines 260-269): append
`" LIMIT 1000"` to a select without a limit when no export flag is set and
the statement does not end in a hanging clause keyword. -/
def applyLimit (fl : Flags) (cleanQuery : Chars) : Chars :=
  if !fl.json && !fl.csv && !fl.noLimit then
    let low := pyLower cleanQuery
    if leadsWith (str "select") low && !hasSub (str "limit") low then
      if lastWordLower cleanQuery ∉ hangingWords then
        cleanQuery ++ str " LIMIT 1000"
      else cleanQuery
    else cleanQuery
  else cleanQuery

/-- The clean SQL computed by `run_query` for a raw query string: extract
flags, strip, apply the safety limit (lines 236-269). -/
def cleanOf (q : Chars) : Chars :=
  applyLimit (parseFlags q).2 (pyStrip (parseFlags q).1)

/-- A cursor-like execution result: column metadata (`cursor.description`,
`none` models Python `None`) and the full row set the backend would stream.
A cell value of `none` models SQL `NULL`. -/
structure Cursor where
  description : Option (List String)
  rows : List (List (Option String))
deriving DecidableEq, Repr

/-- A Python exception relevant to `run_query`'s handlers: `ImportError`
(the `MISSING_PKG:` carrier) or any other exception, each with its message. -/
inductive PyErr where
  | importError (msg : String)
  | otherError (msg : String)
deriving DecidableEq, Repr

/-- Oracle for the external effects of one `run_query` execution: the
backend tag, the outcome of `adapter.connect`, the outcome of
`adapter.execute` on the clean SQL, whether the `--output` target's parent
directory is writable (`os.access(dir, W_OK)`), the `PAGER` environment
variable, and the sibling-interpreter subprocess outcome (`none` = the
subprocess call raised; `some entries` = it succeeded, each entry recording
whether that reported path is a new, existing directory not already on
`sys.path`). -/
structure Backend where
  dbType : String
  connectOutcome : Option PyErr
  executeOutcome : Chars → Except PyErr Cursor
  writableOutput : Bool
  pagerEnv : Option String
  subproc : Option (List Bool)

/-- The adapter variants constructed by `get_adapter` (lines 199-211). -/
inductive AdapterKind where
  | sqlite
  | duckdb
  | postgres
  | mysql
  | testAutoinstall
deriving DecidableEq, Repr

/-- `get_adapter` (lines 199-211): map the backend tag to an adapter or
raise `ValueError` for an unknown tag. -/
def get_adapter (dbType : String) : Except String AdapterKind :=
  if dbType = "sqlite" then .ok .sqlite
  else if dbType = "duckdb" then .ok .duckdb
  else if dbType = "postgres" || dbType = "postgresql" then .ok .postgres
  else if dbType = "mysql" then .ok .mysql
  else if dbType = "test_autoinstall" then .ok .testAutoinstall
  else .error ("Unsupported DB_TYPE: " ++ dbType)

/-- Envelope status values. -/
inductive Status where
  | success
  | error
  | missingPkg
deriving DecidableEq, Repr

/-- Envelope action values. -/
inductive Action where
  | print
  | page
deriving DecidableEq, Repr

/-- The information content of the envelope's `data` field.  Fixed literal
messages are kept verbatim; structured payloads record the headers and rows
that the Python code would serialize (`json.dumps` / `csv.writer` formatting
is presentation, not modelled); spooled payloads record what is written to
the temporary file whose generated path becomes `data`. -/
inductive DataPayload where
  | text (s : String)
  | inlineJson (headers : List String) (rows : List (List (Option String)))
  | inlineCsv (headers : List String) (rows : List (List (Option String)))
  | spooledJson (headers : List String) (rows : List (List (Option String)))
  | spooledCsv (headers : List String) (rows : List (List (Option String)))
  | spooledTable (content : String)
deriving DecidableEq, Repr

/-- The normalized response envelope (`json.dumps({...})` returns). -/
structure Envelope where
  status : Status
  action : Option Action
  data : Option DataPayload
  pager : Option String
  package : Option String
  message : Option String
deriving DecidableEq, Repr

/-- `{"status": "error", "message": msg}`. -/
def Envelope.mkErr (msg : String) : Envelope :=
  Envelope.mk Status.error none none none none (some msg)

/-- `{"status": "success", "action": "print", "data": d}`. -/
def Envelope.successPrint (d : DataPayload) : Envelope :=
  Envelope.mk Status.success (some Action.print) (some d) none none none

/-- `{"status": "success", "action": "page", "data": path, "pager": p}`. -/
def Envelope.successPage (d : DataPayload) (pager : String) : Envelope :=
  Envelope.mk Status.success (some Action.page) (some d) (some pager) none none

/-- `{"status": "missing_pkg", "package": pkg}`. -/
def Envelope.missing (pkg : String) : Envelope :=
  Envelope.mk Status.missingPkg none none none (some pkg) none

/-- The permission-denied envelope returned by the JSON export branch
(lines 296-299).  The Python message interpolates the directory name; the
fixed prefix is kept. -/
def permDeniedEnvelope : Envelope :=
  Envelope.mkErr "Permission denied: Cannot write to the output directory. Try using a path in /tmp/ or your home directory."

/-- Observable side effects of one `run_query` call: number of
`adapter.close()` calls, number of execution attempts (adapter
constructions), whether the explicit `--output` file was opened for
writing, whether it was completely written, whether a temporary spool file
was created, and how many sibling-interpreter subprocess calls were made. -/
structure Trace where
  closes : Nat
  tries : Nat
  openedOutput : Bool
  wroteOutputFile : Bool
  spooledTemp : Bool
  subprocCalls : Nat
deriving DecidableEq, Repr

/-- The trace at the start of one execution attempt. -/
def Trace.base : Trace := Trace.mk 0 1 false false false 0

/-- Record one `adapter.close()` call. -/
def Trace.close (t : Trace) : Trace :=
  Trace.mk (t.closes + 1) t.tries t.openedOutput t.wroteOutputFile t.spooledTemp t.subprocCalls

/-- Record opening the explicit `--output` file for writing. -/
def Trace.openOut (t : Trace) : Trace :=
  Trace.mk t.closes t.tries true t.wroteOutputFile t.spooledTemp t.subprocCalls

/-- Record a completed write of the explicit `--output` file. -/
def Trace.wroteOut (t : Trace) : Trace :=
  Trace.mk t.closes t.tries t.openedOutput true t.spooledTemp t.subprocCalls

/-- Record creation of a temporary spool file (`tempfile.mkstemp`). -/
def Trace.spool (t : Trace) : Trace :=
  Trace.mk t.closes t.tries t.openedOutput t.wroteOutputFile true t.subprocCalls

/-- Record one sibling-interpreter subprocess invocation. -/
def Trace.subprocBump (t : Trace) : Trace :=
  Trace.mk t.closes t.tries t.openedOutput t.wroteOutputFile t.spooledTemp (t.subprocCalls + 1)

/-- Componentwise accumulation of two traces (first attempt + retry). -/
def Trace.merge (t u : Trace) : Trace :=
  Trace.mk (t.closes + u.closes) (t.tries + u.tries)
    (t.openedOutput || u.openedOutput) (t.wroteOutputFile || u.wroteOutputFile)
    (t.spooledTemp || u.spooledTemp) (t.subprocCalls + u.subprocCalls)

/-- `headers = [d[0] for d in cursor.description] if cursor.description
else []` (line 279): the column names, with both `None` and an empty
description giving `[]`. -/
def headersOf (cur : Cursor) : List String := cur.description.getD []

/-- The peek window: `cursor.fetchmany(1001)` when the JSON/CSV flag is set
or the cursor has (truthy) column metadata, else the untouched initial
`all_rows = []` (lines 282-287). -/
def peekRows (fetchNeeded : Bool) (rows : List (List (Option String))) :
    List (List (Option String)) :=
  if fetchNeeded then rows.take 1001 else []

/-- `f"{c:<{w}}"`: left-align a string within width `w`. -/
def padTo (s : String) (w : Nat) : String :=
  s ++ String.mk (List.replicate (w - s.length) ' ')

/-- `format_line` (lines 420-421): width-padded cells joined by `" | "`
(`zip` truncates to the shorter list). -/
def formatLine (r : List String) (ws : List Nat) : String :=
  String.intercalate " | " ((r.zip ws).map (fun p => padTo p.1 p.2))

/-- The separator row: width-matched dashes joined by `"-+-"` (line 423). -/
def separatorLine (ws : List Nat) : String :=
  String.intercalate "-+-" (ws.map (fun w => String.mk (List.replicate w '-')))

/-- `widths[i] = max(widths[i], len(cell))` over one row (lines 417-418);
faithful whenever the row has at most as many cells as there are columns
(Python raises `IndexError` otherwise). -/
def bumpWidths : List Nat → List String → List Nat
  | ws, [] => ws
  | [], _ => []
  | w :: ws, c :: cs => max w c.length :: bumpWidths ws cs

/-- The zero-row table rendering (lines 407-409): header line, separator,
and the literal `(0 rows returned)` line. -/
def zeroRowsRender (headers : List String) : String :=
  String.intercalate " | " headers ++ "\n"
    ++ String.intercalate "-+-" (headers.map (fun h => String.mk (List.replicate h.length '-')))
    ++ "\n(0 rows returned)"

/-- The table-view string rows: `str(cell) if cell is not None else "NULL"`
(line 415). -/
def strRowsOf (rows : List (List (Option String))) : List (List String) :=
  rows.map (fun r => r.map (fun c => c.getD "NULL"))

/-- The body of `run_query` after a successful `adapter.execute`
(lines 278-440), returning the envelope and the accumulated trace.
Every Python `return` is one branch; the CSV export with an unwritable
target models `open()` raising `PermissionError`, which the outer
`except Exception` handler (lines 485-487) converts to an error envelope
after closing the adapter. -/
def bodyAfterExecute (b : Backend) (fl : Flags) (cur : Cursor) (t0 : Trace) :
    Envelope × Trace :=
  let headers := headersOf cur
  let fetchNeeded := fl.json || fl.csv || !headers.isEmpty
  let allRows := peekRows fetchNeeded cur.rows
  let isLarge := 1000 < allRows.length
  if fl.json then
    match fl.output with
    | some p =>
      if b.writableOutput then
        (Envelope.successPrint (DataPayload.text ("Saved JSON to: " ++ String.mk p)),
          t0.openOut.wroteOut.close)
      else
        (permDeniedEnvelope, t0)
    | none =>
      if isLarge then
        (Envelope.successPage (DataPayload.spooledJson headers cur.rows) "cat",
          t0.spool.close)
      else
        (Envelope.successPrint (DataPayload.inlineJson headers allRows), t0.close)
  else if fl.csv then
    match fl.output with
    | some p =>
      if b.writableOutput then
        (Envelope.successPrint (DataPayload.text ("Saved CSV to: " ++ String.mk p)),
          t0.openOut.wroteOut.close)
      else
        (Envelope.mkErr "PermissionError: [Errno 13] Permission denied", t0.openOut.close)
    | none =>
      if isLarge then
        (Envelope.successPage (DataPayload.spooledCsv headers cur.rows) "cat",
          t0.spool.close)
      else
        (Envelope.successPrint (DataPayload.inlineCsv headers allRows), t0.close)
  else if headers.isEmpty then
    (Envelope.successPrint (DataPayload.text "Command executed successfully."), t0.close)
  else
    let rows := if isLarge && fl.noLimit then cur.rows else allRows
    let t1 := t0.close
    if rows.isEmpty then
      if headers.isEmpty then
        (Envelope.successPrint (DataPayload.text "Command executed (no results)."), t1)
      else
        (Envelope.successPrint (DataPayload.text (zeroRowsRender headers)), t1)
    else
      let strRows := strRowsOf rows
      let widths := strRows.foldl bumpWidths (headers.map String.length)
      let outputLines :=
        formatLine headers widths :: separatorLine widths
          :: strRows.map (fun r => formatLine r widths)
      if 50 < outputLines.length then
        (Envelope.successPage
          (DataPayload.spooledTable (String.intercalate "\n" outputLines))
          (b.pagerEnv.getD "less -S"), t1.spool)
      else
        (Envelope.successPrint
          (DataPayload.text (String.intercalate "\n" outputLines)), t1)

/-- Result of one execution attempt: a returned envelope (the `try` body
returned, or a non-`ImportError` exception was converted at lines 485-487),
or a raised `ImportError` reaching the handler at line 442. -/
inductive AttemptResult where
  | done (e : Envelope) (t : Trace)
  | importFailed (msg : String) (t : Trace)
deriving DecidableEq, Repr

/-- One execution attempt of `run_query` (lines 229-440 plus the generic
exception handler): parse flags, build the clean SQL, construct the
adapter, connect, execute, shape the result.  A `ValueError` from
`get_adapter` is caught with `adapter` still `None`, so no close happens;
a non-`ImportError` failure after the adapter exists is closed by the
handler at line 486; an `ImportError` reaches the dedicated handler
without any close. -/
def attempt (b : Backend) (q : Chars) : AttemptResult :=
  match get_adapter b.dbType with
  | .error msg => .done (Envelope.mkErr msg) Trace.base
  | .ok _ =>
    match b.connectOutcome with
    | some (PyErr.importError m) => .importFailed m Trace.base
    | some (PyErr.otherError m) => .done (Envelope.mkErr m) Trace.base.close
    | none =>
      match b.executeOutcome (cleanOf q) with
      | .error (PyErr.importError m) => .importFailed m Trace.base
      | .error (PyErr.otherError m) => .done (Envelope.mkErr m) Trace.base.close
      | .ok cur =>
        .done (bodyAfterExecute b (parseFlags q).2 cur Trace.base).1
          (bodyAfterExecute b (parseFlags q).2 cur Trace.base).2

/-- The terminal reporting of an `ImportError` (lines 481-484): a
`missing_pkg` envelope carrying `msg.split(":")[1]` when the message
contains `MISSING_PKG`, else a plain error envelope. -/
def reportImportFailure (msg : String) : Envelope :=
  if hasSub (str "MISSING_PKG") msg.data then
    Envelope.missing ((msg.splitOn ":").getD 1 "")
  else Envelope.mkErr msg

/-- Combine the first attempt's trace with the retry's result
(the recursive `return run_query(...)` at line 475; the retried call runs
with the guard set, so its own `ImportError` is reported immediately). -/
def finishRetry (t : Trace) (r : AttemptResult) : Envelope × Trace × Bool :=
  match r with
  | .done e u => (e, t.subprocBump.merge u, true)
  | .importFailed m u => (reportImportFailure m, t.subprocBump.merge u, true)

/-- `run_query` (lines 225-487).  `b` drives the first attempt, `rb` the
retried attempt (the process state may differ after `sys.path` was
extended); `synced` is the process-lifetime `sys._dais_path_synced` guard.
Returns the envelope, the accumulated side-effect trace, and the guard
value after the call.  On an `ImportError` whose message contains
`MISSING_PKG` with the guard unset, the subprocess is consulted: if it
succeeds the guard is set and the attempt is retried exactly once on the
flag-stripped query text — regardless of whether any new path was added
(`added_something` only gates `importlib.invalidate_caches()`); if the
subprocess itself raises, the guard assignment at line 472 is never
reached and the original failure is reported. -/
def run_query (b rb : Backend) (synced : Bool) (q : Chars) :
    Envelope × Trace × Bool :=
  match attempt b q with
  | .done e t => (e, t, synced)
  | .importFailed msg t =>
    if hasSub (str "MISSING_PKG") msg.data && !synced then
      match b.subproc with
      | some entries =>
        let _addedSomething := entries.any (fun x => x)
        finishRetry t (attempt rb (parseFlags q).1)
      | none => (reportImportFailure msg, t.subprocBump, synced)
    else (reportImportFailure msg, t, synced)

/-- The inner alias loop of `_resolve_connection_config` (lines 526-536):
scan the alias list in order against one source and stop at the first hit.
A source is a partial map from variable name to string value (`.env`
mapping, `os.environ`, or a config object's attributes). -/
def lookupAliases (src : String → Option String) : List String → Option String
  | [] => none
  | a :: rest =>
    match src a with
    | some v => some v
    | none => lookupAliases src rest

/-- `getattr(config, key, None) if config else None` (lines 518-519). -/
def getConfigVal (config : Option (String → Option String)) (key : String) :
    Option String :=
  match config with
  | some c => c key
  | none => none

/-- Resolution of one canonical key in `_resolve_connection_config`
(lines 522-540): the `.env` mapping's aliases, then the process
environment's aliases, then — only the canonical key itself — the config
defaults. -/
def resolveKey (canonical : String) (aliases : List String)
    (envFile osEnv : String → Option String)
    (config : Option (String → Option String)) : Option String :=
  match lookupAliases envFile aliases with
  | some v => some v
  | none =>
    match lookupAliases osEnv aliases with
    | some v => some v
    | none => getConfigVal config canonical

/-- The whole `_resolve_connection_config` loop (lines 522-545): an
association list from canonical key to resolved value, holding an entry
exactly for the keys some source resolved. -/
def resolve_connection_config (mappings : List (String × List String))
    (envFile osEnv : String → Option String)
    (config : Option (String → Option String)) : List (String × String) :=
  match mappings with
  | [] => []
  | (c, al) :: rest =>
    match resolveKey c al envFile osEnv config with
    | some v => (c, v) :: resolve_connection_config rest envFile osEnv config
    | none => resolve_connection_config rest envFile osEnv config

/-- The default alias table (lines 501-509). -/
def default_mappings : List (String × List String) :=
  [("DB_TYPE", ["DB_TYPE", "DB_T", "DATABASE_TYPE", "ENGINE"]),
   ("DB_SOURCE", ["DB_SOURCE", "DB_FILE", "SQLITE_DB", "DB_S"]),
   ("DB_HOST", ["DB_HOST", "DB_H", "POSTGRES_HOST", "MYSQL_HOST"]),
   ("DB_PORT", ["DB_PORT", "DB_P", "POSTGRES_PORT", "MYSQL_TCP_PORT"]),
   ("DB_USER", ["DB_USER", "DB_U", "POSTGRES_USER", "MYSQL_USER"]),
   ("DB_PASS", ["DB_PASS", "DB_PASSWORD", "POSTGRES_PASSWORD", "MYSQL_PASSWORD", "MYSQL_PWD"]),
   ("DB_NAME", ["DB_NAME", "DB_N", "POSTGRES_DB", "MYSQL_DATABASE"])]

/-- Python `dict.get(key, default)` over the resolved association list. -/
def assocGetD (resolved : List (String × String)) (key dflt : String) : String :=
  match resolved with
  | [] => dflt
  | (k, v) :: rest => if k = key then v else assocGetD rest key dflt

/-- Python `dict.get(key)` (returning `None` when absent). -/
def assocGet (resolved : List (String × String)) (key : String) : Option String :=
  match resolved with
  | [] => none
  | (k, v) :: rest => if k = key then some v else assocGet rest key

/-- `db_type = resolved_config.get("DB_TYPE", "sqlite")` (line 579). -/
def chooseDbType (resolved : List (String × String)) : String :=
  assocGetD resolved "DB_TYPE" "sqlite"

/-- The default-data-source computation of `handle_command`
(lines 585-588), with the filesystem interaction abstracted into two
booleans: whether `~/.dais` already exists and whether `os.makedirs` on it
succeeds.  `home` is the expansion of `~`. -/
def defaultDbSource (home : Chars) (dirExists mkdirOk : Bool) : Chars :=
  let d := home ++ str "/.dais/dais.db"
  if dirExists then d
  else if mkdirOk then d
  else str ".dais.db"

/-- `db_source = resolved_config.get("DB_SOURCE", default_source)`
(line 590), over the abstracted default computation. -/
def dbSourceOf (resolved : List (String × String)) (home : Chars)
    (dirExists mkdirOk : Bool) : Chars :=
  match assocGet resolved "DB_SOURCE" with
  | some v => v.data
  | none => defaultDbSource home dirExists mkdirOk

/-- Python `str.replace(pat, rep)` for a nonempty pattern: scan left to
right, replacing each non-overlapping occurrence; fuel-indexed so that the
recursion is structural (`pyReplace` supplies enough fuel below). -/
def pyReplaceF (pat rep : Chars) : Nat → Chars → Chars
  | _, [] => []
  | 0, s => s
  | fuel + 1, c :: rest =>
    if leadsWith pat (c :: rest) && !pat.isEmpty then
      rep ++ pyReplaceF pat rep fuel (rest.drop (pat.length - 1))
    else c :: pyReplaceF pat rep fuel rest

/-- Python `str.replace(pat, rep)` (nonempty `pat`). -/
def pyReplace (pat rep s : Chars) : Chars := pyReplaceF pat rep s.length s

/-- Python `str.split(pat)` for a nonempty separator: the segments between
the non-overlapping, left-to-right occurrences of `pat`; fuel-indexed like
`pyReplaceF`.  This is the specification-side reading of "replaces every
occurrence": `replace = join-with-rep ∘ split`. -/
def splitOnTokF (pat : Chars) : Nat → Chars → List Chars
  | _, [] => [[]]
  | 0, s => [s]
  | fuel + 1, c :: rest =>
    if leadsWith pat (c :: rest) && !pat.isEmpty then
      [] :: splitOnTokF pat fuel (rest.drop (pat.length - 1))
    else
      match splitOnTokF pat fuel rest with
      | [] => [[c]]
      | seg :: segs => (c :: seg) :: segs

/-- Python `str.split(pat)` (nonempty `pat`). -/
def splitOnTok (pat s : Chars) : List Chars := splitOnTokF pat s.length s

/-- Join segments with a separator (`sep.join(segs)`). -/
def joinWith (sep : Chars) : List Chars → Chars
  | [] => []
  | [x] => x
  | x :: xs => x ++ sep ++ joinWith sep xs

/-- The `_PROJECT_ROOT` placeholder token (line 605). -/
def projectRootTok : Chars := str "_PROJECT_ROOT"

/-- The data-source rewriting of `handle_command` (line 605):
`db_source.replace("_PROJECT_ROOT", cwd) if "_PROJECT_ROOT" in db_source
else db_source`. -/
def resolveDbSource (dbSource cwd : Chars) : Chars :=
  if hasSub projectRootTok dbSource then pyReplace projectRootTok cwd dbSource
  else dbSource

/-- The `DB_TYPE` alias list of the default mapping table. -/
def dbTypeAliases : List String := ["DB_TYPE", "DB_T", "DATABASE_TYPE", "ENGINE"]

/-- A config-defaults object carrying only the alias attribute `DB_T`,
not the canonical `DB_TYPE`. -/
def cfgAliasOnly : String → Option String :=
  fun k => if k = "DB_T" then some "duckdb" else none

/-- An empty source. -/
def noSource : String → Option String := fun _ => none

/-- Resolution of one canonical key as claim C7 describes it: the alias
list is scanned within the static config defaults as well. -/
def resolveKeyClaim (canonical : String) (aliases : List String)
    (envFile osEnv : String → Option String)
    (config : Option (String → Option String)) : Option String :=
  match lookupAliases envFile aliases with
  | some v => some v
  | none =>
    match lookupAliases osEnv aliases with
    | some v => some v
    | none =>
      match config with
      | some c => lookupAliases c aliases
      | none => getConfigVal config canonical

/-- A file source in which the first `DB_TYPE` alias is bound to the empty
string. -/
def envEmptyStr : String → Option String :=
  fun k => if k = "DB_TYPE" then some "" else none

/-- Replace a backend's subprocess oracle, leaving everything else
untouched. -/
def withSubproc (b : Backend) (s : Option (List Bool)) : Backend :=
  Backend.mk b.dbType b.connectOutcome b.executeOutcome b.writableOutput b.pagerEnv s

/-- An occurrence of `flag` in `s` preceded by at least one whitespace
character and followed by whitespace or the end of the string — the
corrected reading of a "standalone token" for the boolean flags. -/
def boundedOcc (flag s : Chars) : Prop :=
  ∃ a w b, s = a ++ w :: (flag ++ b) ∧ isSpaceChar w = true
    ∧ (b = [] ∨ ∃ w2 b2, b = w2 :: b2 ∧ isSpaceChar w2 = true)

/-- What stripping one boolean flag does to the text, per the amended
claim: `s` splits as `pre ++ ws1 ++ flag ++ ws2 ++ suf` around the
leftmost whitespace-preceded occurrence of the flag (`ws1` the nonempty
whitespace run before it, maximal because `pre` does not end in
whitespace; `ws2` the maximal whitespace run after it, empty only at the
end of the string), and the result is `pre ++ " " ++ suf`: the whole
matched span is removed and replaced by a single space.  The last
conjunct pins the occurrence as the first one: no regex match starts
before it. -/
def stripSpec (flag s out : Chars) : Prop :=
  ∃ pre ws1 ws2 suf,
    s = pre ++ ws1 ++ flag ++ ws2 ++ suf
    ∧ out = pre ++ [' '] ++ suf
    ∧ ws1 ≠ []
    ∧ (∀ c ∈ ws1, isSpaceChar c = true)
    ∧ (∀ c ∈ ws2, isSpaceChar c = true)
    ∧ (ws2 = [] → suf = [])
    ∧ (∀ c, pre.getLast? = some c → isSpaceChar c = false)
    ∧ (∀ c, suf.head? = some c → isSpaceChar c = false)
    ∧ (∀ g, g < pre.length + ws1.length → flagMatchAt flag s g = false)

/-- What the `--output <path>` extraction does, per the amended claim:
`q` splits as `pre ++ "--output" ++ ws ++ v ++ suf` around the leftmost
occurrence of the literal followed by a nonempty whitespace run and the
nonempty non-whitespace value token `v` (the immediately following
whitespace-delimited token, maximal because `suf` starts with whitespace
if at all); the matched span is removed with nothing inserted and `v` is
the extracted value. -/
def outputSpec (q v out : Chars) : Prop :=
  ∃ pre ws suf,
    q = pre ++ outTok ++ ws ++ v ++ suf
    ∧ out = pre ++ suf
    ∧ ws ≠ []
    ∧ (∀ c ∈ ws, isSpaceChar c = true)
    ∧ v ≠ []
    ∧ (∀ c ∈ v, isSpaceChar c = false)
    ∧ (∀ c, suf.head? = some c → isSpaceChar c = true)
    ∧ (∀ i, i < pre.length → outputMatchAt q i = false)

/-- Python `str.strip()` as the claim reads it: the original text is the
trimmed text surrounded by (possibly empty) all-whitespace runs, and the
trimmed text neither starts nor ends in whitespace. -/
def trimSpec (t : Chars) : Prop :=
  ∃ a b, t = a ++ pyStrip t ++ b
    ∧ (∀ c ∈ a, isSpaceChar c = true)
    ∧ (∀ c ∈ b, isSpaceChar c = true)
    ∧ (∀ c, (pyStrip t).head? = some c → isSpaceChar c = false)
    ∧ (∀ c, (pyStrip t).getLast? = some c → isSpaceChar c = false)

end Dais

namespace Dais

-- examples exercised while developing (kept as sanity checks)
example : applyLimit (Flags.mk false false false none) (str "select * from t")
    = str "select * from t LIMIT 1000" := by decide
example : applyLimit (Flags.mk false false false none) (str "SELECT x FROM t WHERE")
    = str "SELECT x FROM t WHERE" := by decide
example : applyLimit (Flags.mk false false false none) (str "select * from t LIMIT 5")
    = str "select * from t LIMIT 5" := by decide
example : applyLimit (Flags.mk false false false none) (str "insert into t values(1)")
    = str "insert into t values(1)" := by decide
example : applyLimit (Flags.mk true false false none) (str "select * from t")
    = str "select * from t" := by decide
example : parseFlags (str "select 1 --json --output /tmp/x.json")
    = (str "select 1 ", Flags.mk true false false (some (str "/tmp/x.json"))) := by decide
example : parseFlags (str "--json select 1")
    = (str "--json select 1", Flags.mk false false false none) := by decide
example : pop_bool_flag (str "a --json b") (str "--json") = (str "a b", true) := by decide

/-- A one-row, one-column cursor. -/
def curOneRow : Cursor := Cursor.mk (some ["a"]) [[some "1"]]

/-- Backend for the permission-denied scenario: sqlite, healthy connection
and execution, but the `--output` target directory is not writable. -/
def bPerm : Backend :=
  Backend.mk "sqlite" none (fun _ => .ok curOneRow) false none none

/-- Backend whose connect raises the duckdb `MISSING_PKG` `ImportError`,
and whose subprocess query succeeds but reports no new path. -/
def bMissingNoNew : Backend :=
  Backend.mk "duckdb" (some (PyErr.importError "MISSING_PKG:duckdb"))
    (fun _ => .ok curOneRow) true none (some [])

/-- Healthy retry backend (the driver became importable after the path
sync). -/
def bRetryOk : Backend :=
  Backend.mk "duckdb" none (fun _ => .ok curOneRow) true none none

/-- Backend returning 100 one-cell rows (small by the 1000-row boundary,
but more than 50 rendered table lines). -/
def bHundred : Backend :=
  Backend.mk "sqlite" none
    (fun _ => .ok (Cursor.mk (some ["c"]) (List.replicate 100 [some "x"])))
    true none none

/-- Backend returning exactly 1000 rows. -/
def bThousand : Backend :=
  Backend.mk "sqlite" none
    (fun _ => .ok (Cursor.mk (some ["c"]) (List.replicate 1000 [some "x"])))
    true none none

/-- Backend returning exactly 1001 rows. -/
def bThousandOne : Backend :=
  Backend.mk "sqlite" none
    (fun _ => .ok (Cursor.mk (some ["c"]) (List.replicate 1001 [some "x"])))
    true none none

example :
    (run_query bPerm bPerm false (str "select 1 --json --output /tmp/x.json")).1
      = permDeniedEnvelope := by decide
example :
    (run_query bPerm bPerm false (str "select 1 --json --output /tmp/x.json")).2.1.closes
      = 0 := by decide
example :
    (run_query bMissingNoNew bRetryOk false (str "select 1")).1.status = Status.success := by
  decide
example :
    (run_query bMissingNoNew bRetryOk false (str "select 1")).2.1.tries = 2 := by decide
example :
    (run_query bThousand bThousand false (str "select c from t --json")).1.action
      = some Action.print := by decide
example :
    (run_query bThousandOne bThousandOne false (str "select c from t --json")).1.action
      = some Action.page := by decide
example :
    (run_query bHundred bHundred false (str "select c from t")).1.action
      = some Action.page := by decide
example :
    (run_query bHundred bHundred false (str "select c from t --json")).1.action
      = some Action.print := by decide

/-! ### Helper lemmas -/

theorem assocGetD_eq_getD (r : List (String × String)) (k d : String) :
    assocGetD r k d = (assocGet r k).getD d := by
  induction r with
  | nil => rfl
  | cons p rest ih =>
    obtain ⟨k', v⟩ := p
    by_cases h : k' = k <;> simp [assocGetD, assocGet, h, ih]

theorem assocGet_resolve_none (mappings : List (String × List String))
    (envFile osEnv : String → Option String)
    (config : Option (String → Option String)) (k : String)
    (h : ∀ al, (k, al) ∈ mappings → resolveKey k al envFile osEnv config = none) :
    assocGet (resolve_connection_config mappings envFile osEnv config) k = none := by
  induction mappings with
  | nil => rfl
  | cons p rest ih =>
    obtain ⟨c, al⟩ := p
    have hrest : ∀ al', (k, al') ∈ rest → resolveKey k al' envFile osEnv config = none :=
      fun al' h' => h al' (List.mem_cons_of_mem _ h')
    unfold resolve_connection_config
    cases hr : resolveKey c al envFile osEnv config with
    | none => exact ih hrest
    | some v =>
      by_cases hk : c = k
      · subst hk
        rw [h al (List.mem_cons_self _ _)] at hr
        exact absurd hr (by simp)
      · simp [assocGet, hk]
        exact ih hrest

theorem joinWith_nil_cons (sep : Chars) (x : Chars) (xs : List Chars) :
    joinWith sep ([] :: x :: xs) = sep ++ joinWith sep (x :: xs) := by
  simp [joinWith]

theorem joinWith_cons_cons (sep : Chars) (c : Char) (seg : Chars) (segs : List Chars) :
    joinWith sep ((c :: seg) :: segs) = c :: joinWith sep (seg :: segs) := by
  cases segs <;> simp [joinWith]

theorem splitOnTokF_ne_nil (pat : Chars) (fuel : Nat) (s : Chars) :
    splitOnTokF pat fuel s ≠ [] := by
  induction fuel generalizing s with
  | zero => cases s <;> simp [splitOnTokF]
  | succ n ih =>
    cases s with
    | nil => simp [splitOnTokF]
    | cons c rest =>
      unfold splitOnTokF
      by_cases h : (leadsWith pat (c :: rest) && !pat.isEmpty) = true
      · simp [h]
      · cases hsp : splitOnTokF pat n rest with
        | nil => simp [h, hsp]
        | cons seg segs => simp [h, hsp]

theorem pyReplaceF_eq_join (pat rep : Chars) (fuel : Nat) (s : Chars) :
    pyReplaceF pat rep fuel s = joinWith rep (splitOnTokF pat fuel s) := by
  induction fuel generalizing s with
  | zero => cases s <;> simp [pyReplaceF, splitOnTokF, joinWith]
  | succ n ih =>
    cases s with
    | nil => simp [pyReplaceF, splitOnTokF, joinWith]
    | cons c rest =>
      unfold pyReplaceF splitOnTokF
      by_cases h : (leadsWith pat (c :: rest) && !pat.isEmpty) = true
      · rw [if_pos h, if_pos h, ih]
        cases hsp : splitOnTokF pat n (rest.drop (pat.length - 1)) with
        | nil => exact absurd hsp (splitOnTokF_ne_nil pat n _)
        | cons x xs => rw [joinWith_nil_cons]
      · rw [if_neg h, if_neg h, ih]
        cases hsp : splitOnTokF pat n rest with
        | nil => exact absurd hsp (splitOnTokF_ne_nil pat n rest)
        | cons seg segs => rw [joinWith_cons_cons]

theorem hasSub_cons_false {pat : Chars} {c : Char} {rest : Chars}
    (h : hasSub pat (c :: rest) = false) :
    leadsWith pat (c :: rest) = false ∧ hasSub pat rest = false := by
  unfold hasSub at h
  exact ⟨by cases hl : leadsWith pat (c :: rest) <;> simp [hl] at h ⊢,
         by cases hr : hasSub pat rest <;> simp [hr] at h ⊢⟩

theorem splitOnTokF_no_occ (pat : Chars) (fuel : Nat) (s : Chars)
    (h : hasSub pat s = false) : splitOnTokF pat fuel s = [s] := by
  induction fuel generalizing s with
  | zero => cases s with
    | nil =>
      unfold hasSub at h
      simp [splitOnTokF]
    | cons c rest => simp [splitOnTokF]
  | succ n ih =>
    cases s with
    | nil => simp [splitOnTokF]
    | cons c rest =>
      obtain ⟨h1, h2⟩ := hasSub_cons_false h
      unfold splitOnTokF
      rw [if_neg (by simp [h1]), ih rest h2]

/-! ### Claim theorems -/

/-- C4: for every input query, when none of the json/csv/no-limit flags are
set, the lowercased clean SQL begins with `select`, does not contain the
substring `limit`, and its last whitespace-delimited token is not a hanging
clause keyword, exactly one `" LIMIT 1000"` suffix is appended; in every
other case (a select already containing `limit`, a non-select statement, a
select ending in a hanging clause keyword, or any export flag set) the
clean SQL is returned unchanged. -/
theorem C4_safety_limit (fl : Flags) (clean : Chars) :
    applyLimit fl clean =
      if fl.json = false ∧ fl.csv = false ∧ fl.noLimit = false
          ∧ leadsWith (str "select") (pyLower clean) = true
          ∧ hasSub (str "limit") (pyLower clean) = false
          ∧ lastWordLower clean ∉ hangingWords
      then clean ++ str " LIMIT 1000"
      else clean := by
  unfold applyLimit
  cases hj : fl.json <;> cases hc : fl.csv <;> cases hn : fl.noLimit <;>
    simp only [Bool.not_true, Bool.not_false, Bool.false_and, Bool.and_false,
      Bool.true_and, Bool.and_true, Bool.and_self, if_true, if_false,
      Bool.false_eq_true, false_and, and_false, true_and, and_true, if_neg,
      reduceIte] <;>
    try rfl
  by_cases h1 : leadsWith (str "select") (pyLower clean) = true <;>
    by_cases h2 : hasSub (str "limit") (pyLower clean) = false <;>
    by_cases h3 : lastWordLower clean ∉ hangingWords <;>
    simp_all

/-- C7 counterexample: with every source empty except a config-defaults
object that carries only the alias `DB_T`, the code resolves `DB_TYPE` to
nothing, while the claim's "scanning the key's alias list within each
source" would resolve it to `"duckdb"`.  The config-defaults source is
consulted only at the canonical key (`getattr(config, canonical, None)`,
line 519). -/
theorem C7_counterexample :
    resolveKey "DB_TYPE" dbTypeAliases noSource noSource (some cfgAliasOnly) = none
    ∧ resolveKeyClaim "DB_TYPE" dbTypeAliases noSource noSource (some cfgAliasOnly)
        = some "duckdb" := by
  constructor <;> decide

/-- C7 (amended): per canonical key, resolution consults the discovered
`.env` mapping and then the process environment, scanning the alias list
within each of those two sources; the static config defaults are consulted
last and only at the canonical key itself; the first source containing a
hit wins outright, and no later source is consulted even when the winning
value is the empty string. -/
theorem C7_resolution_order (canonical : String) (aliases : List String)
    (envFile osEnv : String → Option String)
    (config : Option (String → Option String)) :
    (∀ v, lookupAliases envFile aliases = some v →
        resolveKey canonical aliases envFile osEnv config = some v)
    ∧ (lookupAliases envFile aliases = none →
        ∀ v, lookupAliases osEnv aliases = some v →
          resolveKey canonical aliases envFile osEnv config = some v)
    ∧ (lookupAliases envFile aliases = none →
        lookupAliases osEnv aliases = none →
          resolveKey canonical aliases envFile osEnv config
            = getConfigVal config canonical) := by
  refine ⟨fun v hv => ?_, fun h1 v hv => ?_, fun h1 h2 => ?_⟩ <;>
    unfold resolveKey <;> simp_all

/-- C7 witness: the empty string found in the file source wins even though
the process environment binds every name. -/
theorem C7_resolution_order_witness :
    resolveKey "DB_TYPE" dbTypeAliases envEmptyStr (fun _ => some "postgres") none
      = some "" :=
  (C7_resolution_order "DB_TYPE" dbTypeAliases envEmptyStr (fun _ => some "postgres")
    none).1 "" (by decide)

/-- C8: the code's default data-source fallback is `~/.dais/dais.db`
(creating its parent directory if absent) and then the working-directory
relative `.dais.db` — but, contrary to the claim and to the code's own
comment "3. :memory: (absolute fallback)" (line 584), the in-memory
database is never produced on any path: when `DB_SOURCE` is unresolved and
the directory cannot be created, the handler proceeds with `.dais.db`. -/
theorem C8_no_memory_fallback :
    (∀ (home : Chars) (dirExists mkdirOk : Bool),
        dbSourceOf [] home dirExists mkdirOk = defaultDbSource home dirExists mkdirOk
          ∧ defaultDbSource home dirExists mkdirOk ≠ str ":memory:")
    ∧ defaultDbSource (str "/home/u") false false = str ".dais.db" := by
  refine ⟨fun home d m => ⟨rfl, ?_⟩, by decide⟩
  unfold defaultDbSource
  have hlen : ∀ h : home ++ str "/.dais/dais.db" = str ":memory:", False := by
    intro h
    have := congrArg List.length h
    simp [str] at this
  split_ifs <;> first | exact fun h => hlen h | decide

/-- C8 witness: at the concrete failing input (unresolved `DB_SOURCE`,
missing user directory, failing `makedirs`) the fallback is the
working-directory file, not the in-memory database. -/
theorem C8_no_memory_fallback_witness :
    dbSourceOf [] (str "/home/u") false false = str ".dais.db"
    ∧ defaultDbSource (str "/home/u") false false ≠ str ":memory:" :=
  ⟨((C8_no_memory_fallback.1 (str "/home/u") false false).1).trans
      C8_no_memory_fallback.2,
   (C8_no_memory_fallback.1 (str "/home/u") false false).2⟩

/-- C9: when no source resolves `DB_TYPE`, `handle_command` falls back to
the tag `"sqlite"` and `get_adapter` returns the sqlite adapter rather
than raising the unknown-backend `ValueError`. -/
theorem C9_dbtype_default (envFile osEnv : String → Option String)
    (config : Option (String → Option String))
    (h : resolveKey "DB_TYPE" dbTypeAliases envFile osEnv config = none) :
    chooseDbType (resolve_connection_config default_mappings envFile osEnv config)
      = "sqlite"
    ∧ get_adapter "sqlite" = .ok AdapterKind.sqlite := by
  refine ⟨?_, rfl⟩
  have hnone :
      assocGet (resolve_connection_config default_mappings envFile osEnv config)
        "DB_TYPE" = none := by
    apply assocGet_resolve_none
    intro al hal
    simp only [default_mappings, List.mem_cons, List.not_mem_nil, or_false,
      Prod.mk.injEq] at hal
    rcases hal with ⟨-, h2⟩ | ⟨h1, -⟩ | ⟨h1, -⟩ | ⟨h1, -⟩ | ⟨h1, -⟩ | ⟨h1, -⟩ | ⟨h1, -⟩
    · subst h2; exact h
    all_goals exact absurd h1 (by decide)
  unfold chooseDbType
  rw [assocGetD_eq_getD, hnone]
  rfl

/-- C9 witness: with every source empty, the handler runs against sqlite. -/
theorem C9_dbtype_default_witness :
    chooseDbType (resolve_connection_config default_mappings noSource noSource none)
      = "sqlite"
    ∧ get_adapter "sqlite" = .ok AdapterKind.sqlite :=
  C9_dbtype_default noSource noSource none (by decide)

/-- C10: if the resolved `DB_SOURCE` contains `_PROJECT_ROOT`, every
occurrence of that substring is replaced with the caller's working
directory (`str.replace` semantics: the result is the source split on the
non-overlapping occurrences of the token and rejoined with `cwd`); a
`DB_SOURCE` without that substring is passed unchanged. -/
theorem C10_project_root (src cwd : Chars) :
    resolveDbSource src cwd = joinWith cwd (splitOnTok projectRootTok src)
    ∧ (hasSub projectRootTok src = false → resolveDbSource src cwd = src) := by
  constructor
  · unfold resolveDbSource pyReplace splitOnTok
    by_cases h : hasSub projectRootTok src = true
    · rw [if_pos h]
      exact pyReplaceF_eq_join projectRootTok cwd src.length src
    · rw [if_neg h]
      rw [splitOnTokF_no_occ projectRootTok src.length src (by simpa using h)]
      rfl
  · intro h
    unfold resolveDbSource
    rw [if_neg (by simp [h])]

/-- C10 witness: a source with the token is rewritten at each occurrence;
one without it passes through unchanged. -/
theorem C10_project_root_witness :
    resolveDbSource (str "mydb.sqlite") (str "/work") = str "mydb.sqlite"
    ∧ resolveDbSource (str "_PROJECT_ROOT/data/_PROJECT_ROOT.db") (str "/work")
        = str "/work/data//work.db" :=
  ⟨(C10_project_root (str "mydb.sqlite") (str "/work")).2 (by decide),
   by decide⟩

/-- If the attempt finished, `run_query` returns its result with the guard
unchanged. -/
theorem run_query_done (b rb : Backend) (synced : Bool) (q : Chars)
    (e : Envelope) (t : Trace) (h : attempt b q = .done e t) :
    run_query b rb synced q = (e, t, synced) := by
  unfold run_query
  rw [h]

/-- If the adapter is constructed, the connection succeeds and the
execution succeeds, the attempt is the result-shaping body. -/
theorem attempt_ok (b : Backend) (q : Chars) (k : AdapterKind) (cur : Cursor)
    (hA : get_adapter b.dbType = .ok k)
    (hC : b.connectOutcome = none)
    (hE : b.executeOutcome (cleanOf q) = .ok cur) :
    attempt b q
      = .done (bodyAfterExecute b (parseFlags q).2 cur Trace.base).1
          (bodyAfterExecute b (parseFlags q).2 cur Trace.base).2 := by
  unfold attempt
  rw [hA, hC, hE]

/-- An execution attempt never consults the subprocess oracle. -/
theorem attempt_withSubproc (b : Backend) (s : Option (List Bool)) (q : Chars) :
    attempt (withSubproc b s) q = attempt b q := rfl

/-- C1 (code bug): the claim — and the module's own contract ("must be
released exactly once regardless of success/failure") — says every exit
path of `run_query` that constructed an adapter closes it exactly once.
The code violates this twice: the permission-denied return of the JSON
export (lines 295-299) returns the error envelope without any
`adapter.close()`, and the `ImportError` handler (lines 442-484) reports
`missing_pkg` without any close even though the adapter object exists.
Both are evaluated here: `get_adapter` succeeded, yet `closes = 0`. -/
theorem C1_close_leak :
    get_adapter bPerm.dbType = .ok AdapterKind.sqlite
    ∧ (run_query bPerm bPerm false (str "select 1 --json --output /tmp/x.json")).1
        = permDeniedEnvelope
    ∧ (run_query bPerm bPerm false (str "select 1 --json --output /tmp/x.json")).2.1.closes
        = 0
    ∧ get_adapter bMissingNoNew.dbType = .ok AdapterKind.duckdb
    ∧ (run_query bMissingNoNew bMissingNoNew true (str "select 1")).1.status
        = Status.missingPkg
    ∧ (run_query bMissingNoNew bMissingNoNew true (str "select 1")).2.1.closes = 0 := by
  exact ⟨rfl, by decide, by decide, rfl, by decide, by decide⟩

/-- C2 counterexample: with an unwritable target directory, the JSON
export returns the permission envelope without ever opening the file, but
the CSV export performs no writability check at all — it opens the target
directly (lines 345-347), so a write is attempted before any
verification, and the resulting envelope is the generic exception
envelope, not the permission-check envelope.  The claimed behaviour is
therefore not "identical" for JSON and CSV. -/
theorem C2_counterexample :
    (run_query bPerm bPerm false (str "select 1 --json --output /t/x.json")).2.1.openedOutput
      = false
    ∧ (run_query bPerm bPerm false (str "select 1 --csv --output /t/x.csv")).2.1.openedOutput
      = true
    ∧ (run_query bPerm bPerm false (str "select 1 --csv --output /t/x.csv")).1
      = Envelope.mkErr "PermissionError: [Errno 13] Permission denied"
    ∧ (run_query bPerm bPerm false (str "select 1 --csv --output /t/x.csv")).2.1.wroteOutputFile
      = false := by
  exact ⟨by decide, by decide, by decide, by decide⟩

/-- C3 counterexample: first `MissingDriverError` with the guard unset,
subprocess query succeeds but adds no new location (`some []`), and the
retry succeeds.  The claim says the original error should be reported as
`missing_pkg` without retrying; the code retries unconditionally after a
successful subprocess call (the recursive call at line 475 is outside the
`if added_something` block), so the result is a success envelope and two
execution attempts. -/
theorem C3_counterexample :
    (run_query bMissingNoNew bRetryOk false (str "select 1")).1.status = Status.success
    ∧ (run_query bMissingNoNew bRetryOk false (str "select 1")).2.1.tries = 2
    ∧ (run_query bMissingNoNew bRetryOk false (str "select 1")).2.1.subprocCalls = 1 := by
  exact ⟨by decide, by decide, by decide⟩

/-- C5 counterexample: a 100-row result is "small" by the 1000-row
boundary, yet the table view spools it to a pager (its own threshold is 50
rendered lines, line 432), while JSON and CSV modes return it inline.  The
1000/1001 boundary therefore does not decide inline-versus-spooled for the
table view. -/
theorem C5_counterexample :
    (run_query bHundred bHundred false (str "select c from t")).1.action
      = some Action.page
    ∧ (run_query bHundred bHundred false (str "select c from t --json")).1.action
      = some Action.print
    ∧ (run_query bHundred bHundred false (str "select c from t --csv")).1.action
      = some Action.print := by
  exact ⟨by decide, by decide, by decide⟩

/-- C2 (amended): for a query carrying `--output` with an unwritable
target directory (and a healthy adapter/connection/execution), the JSON
export pre-checks writability and returns the permission envelope with no
write attempted and no file created (the returned trace is `Trace.base`:
no open, no write, no spool — and, per C1, no close); the CSV export
performs no pre-check: the file open is attempted directly, fails, and the
generic exception handler returns an error envelope after closing the
adapter, with no file completely written. -/
theorem C2_output_permission (b rb : Backend) (q : Chars) (k : AdapterKind)
    (cur : Cursor) (p : Chars)
    (hA : get_adapter b.dbType = .ok k)
    (hC : b.connectOutcome = none)
    (hE : b.executeOutcome (cleanOf q) = .ok cur)
    (hout : (parseFlags q).2.output = some p)
    (hw : b.writableOutput = false) :
    ((parseFlags q).2.json = true →
        run_query b rb false q = (permDeniedEnvelope, Trace.base, false))
    ∧ ((parseFlags q).2.json = false → (parseFlags q).2.csv = true →
        run_query b rb false q
          = (Envelope.mkErr "PermissionError: [Errno 13] Permission denied",
              Trace.base.openOut.close, false)) := by
  have hdone := attempt_ok b q k cur hA hC hE
  constructor
  · intro hj
    rw [run_query_done b rb false q _ _ hdone]
    simp [bodyAfterExecute, hj, hout, hw]
  · intro hj hc
    rw [run_query_done b rb false q _ _ hdone]
    simp [bodyAfterExecute, hj, hc, hout, hw]

/-- C2 witness: the JSON-export clause applied to the concrete unwritable
backend. -/
theorem C2_output_permission_witness :
    run_query bPerm bPerm false (str "select 2 --json --output /t/y.json")
      = (permDeniedEnvelope, Trace.base, false) :=
  (C2_output_permission bPerm bPerm (str "select 2 --json --output /t/y.json")
      AdapterKind.sqlite curOneRow (str "/t/y.json") rfl rfl rfl (by decide) rfl).1
    (by decide)

/-- C3 (amended): on the first `MissingDriverError` with the guard unset,
`run_query` consults the subprocess; whenever that call succeeds it sets
the guard and retries exactly once on the flag-stripped query text,
regardless of whether any new location was added (`added_something` gates
only the import-cache invalidation, so the result is independent of the
reported entries); if the subprocess call itself raises, the guard is left
unset and the original failure is reported as `missing_pkg` without a
retry; with the guard already set, the failure is reported immediately. -/
theorem C3_retry_semantics (b rb : Backend) (q : Chars) (msg : String) (t : Trace)
    (himp : attempt b q = .importFailed msg t)
    (hmp : hasSub (str "MISSING_PKG") msg.data = true) :
    (∀ entries : List Bool, b.subproc = some entries →
        run_query b rb false q = finishRetry t (attempt rb (parseFlags q).1))
    ∧ (b.subproc = none →
        run_query b rb false q = (reportImportFailure msg, t.subprocBump, false))
    ∧ run_query b rb true q = (reportImportFailure msg, t, true)
    ∧ (∀ e1 e2 : List Bool,
        run_query (withSubproc b (some e1)) rb false q
          = run_query (withSubproc b (some e2)) rb false q) := by
  refine ⟨?_, ?_, ?_, ?_⟩
  · intro entries hsub
    unfold run_query
    rw [himp]
    simp [hmp, hsub]
  · intro hsub
    unfold run_query
    rw [himp]
    simp [hmp, hsub]
  · unfold run_query
    rw [himp]
    simp [hmp]
  · intro e1 e2
    unfold run_query
    rw [attempt_withSubproc, attempt_withSubproc, himp]
    simp [hmp, withSubproc]

/-- C3 witness: the retry clause applied to the concrete
missing-driver backend whose subprocess reports no new location. -/
theorem C3_retry_semantics_witness :
    run_query bMissingNoNew bRetryOk false (str "select 1")
      = finishRetry Trace.base (attempt bRetryOk (parseFlags (str "select 1")).1) :=
  (C3_retry_semantics bMissingNoNew bRetryOk (str "select 1") "MISSING_PKG:duckdb"
      Trace.base (by decide) (by decide)).1 [] rfl

/-- C5 (amended): the peek window holds at most 1001 rows and exceeds 1000
exactly when the full result does (1000 rows is small, 1001 is large);
this boundary decides inline-versus-spooled output identically for JSON
mode and CSV mode without an explicit output path; the table view instead
spools exactly when its rendered line count — two header lines plus one
line per rendered row (the full result under `--no-limit` on a large
result, otherwise the peek window) — exceeds 50. -/
theorem C5_small_large_boundary (b rb : Backend) (q : Chars) (k : AdapterKind)
    (cur : Cursor)
    (hA : get_adapter b.dbType = .ok k)
    (hC : b.connectOutcome = none)
    (hE : b.executeOutcome (cleanOf q) = .ok cur) :
    (peekRows true cur.rows).length ≤ 1001
    ∧ (1000 < (peekRows true cur.rows).length ↔ 1000 < cur.rows.length)
    ∧ ((parseFlags q).2.json = true → (parseFlags q).2.output = none →
        (run_query b rb false q).1.action
            = some (if 1000 < cur.rows.length then Action.page else Action.print)
          ∧ (run_query b rb false q).2.1.spooledTemp = decide (1000 < cur.rows.length))
    ∧ ((parseFlags q).2.json = false → (parseFlags q).2.csv = true →
        (parseFlags q).2.output = none →
        (run_query b rb false q).1.action
            = some (if 1000 < cur.rows.length then Action.page else Action.print)
          ∧ (run_query b rb false q).2.1.spooledTemp = decide (1000 < cur.rows.length))
    ∧ ((parseFlags q).2.json = false → (parseFlags q).2.csv = false →
        (headersOf cur).isEmpty = false → cur.rows ≠ [] →
        (run_query b rb false q).1.action
            = some (if 50 < 2 + (if 1000 < cur.rows.length
                                    ∧ (parseFlags q).2.noLimit = true
                                  then cur.rows.length
                                  else min 1001 cur.rows.length)
                then Action.page else Action.print)) := by
  have hdone := attempt_ok b q k cur hA hC hE
  have hlen : (cur.rows.take 1001).length = min 1001 cur.rows.length :=
    List.length_take _ _
  refine ⟨?_, ?_, ?_, ?_, ?_⟩
  · simp only [peekRows, if_pos, hlen]
    omega
  · simp only [peekRows, if_pos, hlen]
    omega
  · intro hj hout
    rw [run_query_done b rb false q _ _ hdone]
    by_cases hL : 1000 < cur.rows.length
    · have hcond : 1000 < min 1001 cur.rows.length := by omega
      simp [bodyAfterExecute, hj, hout, peekRows, hlen, hcond, hL,
        Envelope.successPage, Trace.spool, Trace.close, Trace.base]
    · have hcond : ¬ 1000 < min 1001 cur.rows.length := by omega
      simp [bodyAfterExecute, hj, hout, peekRows, hlen, hcond, hL,
        Envelope.successPrint, Trace.close, Trace.base]
  · intro hj hc hout
    rw [run_query_done b rb false q _ _ hdone]
    by_cases hL : 1000 < cur.rows.length
    · have hcond : 1000 < min 1001 cur.rows.length := by omega
      simp [bodyAfterExecute, hj, hc, hout, peekRows, hlen, hcond, hL,
        Envelope.successPage, Trace.spool, Trace.close, Trace.base]
    · have hcond : ¬ 1000 < min 1001 cur.rows.length := by omega
      simp [bodyAfterExecute, hj, hc, hout, peekRows, hlen, hcond, hL,
        Envelope.successPrint, Trace.close, Trace.base]
  · intro hj hc hH hR
    rw [run_query_done b rb false q _ _ hdone]
    have htk : cur.rows.take 1001 ≠ [] := by
      simp [List.take_eq_nil_iff, hR]
    by_cases hL : 1000 < cur.rows.length <;>
      cases hNL : (parseFlags q).2.noLimit
    · have hcond : 1000 < min 1001 cur.rows.length := by omega
      have hiff : (50 < min 1001 cur.rows.length + 2)
          ↔ (50 < 2 + min 1001 cur.rows.length) := by omega
      simp [bodyAfterExecute, hj, hc, hH, hNL, peekRows, hlen, hcond, hL, hR, htk,
        strRowsOf, Envelope.successPage, Envelope.successPrint, hiff]
      split <;> simp_all
    · have hcond : 1000 < min 1001 cur.rows.length := by omega
      have hiff : (50 < cur.rows.length + 2) ↔ (50 < 2 + cur.rows.length) := by omega
      simp [bodyAfterExecute, hj, hc, hH, hNL, peekRows, hlen, hcond, hL, hR, htk,
        strRowsOf, Envelope.successPage, Envelope.successPrint, hiff]
      split <;> simp_all
    · have hcond : ¬ 1000 < min 1001 cur.rows.length := by omega
      have hiff : (50 < min 1001 cur.rows.length + 2)
          ↔ (50 < 2 + min 1001 cur.rows.length) := by omega
      simp [bodyAfterExecute, hj, hc, hH, hNL, peekRows, hlen, hcond, hL, hR, htk,
        strRowsOf, Envelope.successPage, Envelope.successPrint, hiff]
      split <;> simp_all
    · have hcond : ¬ 1000 < min 1001 cur.rows.length := by omega
      have hiff : (50 < min 1001 cur.rows.length + 2)
          ↔ (50 < 2 + min 1001 cur.rows.length) := by omega
      simp [bodyAfterExecute, hj, hc, hH, hNL, peekRows, hlen, hcond, hL, hR, htk,
        strRowsOf, Envelope.successPage, Envelope.successPrint, hiff]
      split <;> simp_all

/-- C5 witness: the boundary clauses applied to concrete 1001-row and
1000-row backends in JSON mode. -/
theorem C5_small_large_boundary_witness :
    (run_query bThousandOne bThousandOne false (str "select c from t --json")).1.action
      = some Action.page
    ∧ (run_query bThousand bThousand false (str "select c from t --json")).1.action
      = some Action.print := by
  have h1 :=
    ((C5_small_large_boundary bThousandOne bThousandOne
        (str "select c from t --json") AdapterKind.sqlite
        (Cursor.mk (some ["c"]) (List.replicate 1001 [some "x"]))
        rfl rfl rfl).2.2.1 (by decide) (by decide)).1
  have h2 :=
    ((C5_small_large_boundary bThousand bThousand
        (str "select c from t --json") AdapterKind.sqlite
        (Cursor.mk (some ["c"]) (List.replicate 1000 [some "x"]))
        rfl rfl rfl).2.2.1 (by decide) (by decide)).1
  rw [h1, h2]
  simp

/-- C6 counterexample: `--json` standing at the very start of the query is
a whole token bounded by the string edge, so the claim says it is
extracted; but the regex `\s+--json(\s+|$)` (line 247) requires at least
one whitespace character before the flag, so the code leaves the flag
unset and the token stays inside the clean SQL. -/
theorem C6_counterexample :
    leadsWith (str "--json") (str "--json select 1") = true
    ∧ (parseFlags (str "--json select 1")).2.json = false
    ∧ pyStrip (parseFlags (str "--json select 1")).1 = str "--json select 1" := by
  exact ⟨by decide, by decide, by decide⟩

theorem leadsWith_iff (p s : Chars) : leadsWith p s = true ↔ ∃ t, s = p ++ t := by
  induction p generalizing s with
  | nil => simp [leadsWith]
  | cons a ps ih =>
    cases s with
    | nil => simp [leadsWith]
    | cons c cs =>
      simp only [leadsWith, Bool.and_eq_true, beq_iff_eq, ih, List.cons_append,
        List.cons.injEq]
      constructor
      · rintro ⟨rfl, t, rfl⟩
        exact ⟨t, rfl, rfl⟩
      · rintro ⟨t, rfl, rfl⟩
        exact ⟨rfl, t, rfl⟩

theorem flagMatchAt_boundedOcc (flag s : Chars) (f : Nat)
    (h : flagMatchAt flag s f = true) : boundedOcc flag s := by
  simp only [flagMatchAt, Bool.and_eq_true, Bool.or_eq_true, bne_iff_ne, ne_eq,
    beq_iff_eq] at h
  obtain ⟨⟨⟨hf0, hsp⟩, hlead⟩, hend⟩ := h
  cases hw : s.get? (f - 1) with
  | none => rw [hw] at hsp; simp [optSpace] at hsp
  | some w =>
    rw [hw] at hsp
    simp only [optSpace] at hsp
    obtain ⟨f', rfl⟩ : ∃ f', f = f' + 1 :=
      ⟨f - 1, (Nat.succ_pred_eq_of_pos (Nat.pos_of_ne_zero hf0)).symm⟩
    rw [Nat.add_sub_cancel] at hw
    obtain ⟨t, hdrop⟩ := (leadsWith_iff flag (s.drop (f' + 1))).mp hlead
    obtain ⟨hlt, hget⟩ := List.get?_eq_some.mp hw
    have hsplit : s = s.take f' ++ (w :: (flag ++ t)) := by
      conv_lhs => rw [← List.take_append_drop f' s]
      rw [List.drop_eq_get_cons hlt, hget, hdrop]
    have ht : t = s.drop (f' + 1 + flag.length) := by
      calc t = (flag ++ t).drop flag.length := (List.drop_left _ _).symm
        _ = (s.drop (f' + 1)).drop flag.length := by rw [hdrop]
        _ = s.drop (f' + 1 + flag.length) := List.drop_drop _ _ _
    refine ⟨s.take f', w, t, hsplit, hsp, ?_⟩
    rcases hend with hl | hr
    · left
      rw [ht, ← hl, List.drop_length]
    · cases hw2 : s.get? (f' + 1 + flag.length) with
      | none => rw [hw2] at hr; simp [optSpace] at hr
      | some w2 =>
        rw [hw2] at hr
        simp only [optSpace] at hr
        obtain ⟨hlt2, hget2⟩ := List.get?_eq_some.mp hw2
        right
        exact ⟨w2, s.drop (f' + 1 + flag.length + 1),
          by rw [ht, List.drop_eq_get_cons hlt2, hget2], hr⟩

theorem boundedOcc_flagMatch (flag s : Chars) (hne : flag ≠ [])
    (h : boundedOcc flag s) :
    ∃ f, f ∈ List.range s.length ∧ flagMatchAt flag s f = true := by
  obtain ⟨a, w, b, hs, hws, hb⟩ := h
  have hflen : 0 < flag.length := List.length_pos.mpr hne
  have hgetw : s.get? a.length = some w := by
    rw [hs, List.get?_append_right (Nat.le_refl _), Nat.sub_self]
    rfl
  have hdropf : s.drop (a.length + 1) = flag ++ b := by
    have hre : a ++ w :: (flag ++ b) = (a ++ [w]) ++ (flag ++ b) := by simp
    rw [hs, hre, List.drop_left' (by simp)]
  refine ⟨a.length + 1, ?_, ?_⟩
  · rw [List.mem_range, hs]
    simp only [List.length_append, List.length_cons]
    omega
  · simp only [flagMatchAt, Bool.and_eq_true, Bool.or_eq_true, bne_iff_ne, ne_eq,
      beq_iff_eq, Nat.add_sub_cancel]
    refine ⟨⟨⟨by omega, ?_⟩, ?_⟩, ?_⟩
    · rw [hgetw]
      exact hws
    · rw [hdropf]
      exact (leadsWith_iff flag (flag ++ b)).mpr ⟨b, rfl⟩
    · rcases hb with rfl | ⟨w2, b2, rfl, hw2⟩
      · left
        rw [hs]
        simp only [List.length_append, List.length_cons, List.length_nil]
        omega
      · right
        have hre : a ++ w :: (flag ++ w2 :: b2) = (a ++ w :: flag) ++ (w2 :: b2) := by
          simp
        have hlen : (a ++ w :: flag).length = a.length + 1 + flag.length := by
          simp only [List.length_append, List.length_cons]
          omega
        rw [hs, hre, List.get?_append_right (by omega), hlen, Nat.sub_self]
        exact hw2

theorem pop_bool_flag_found_iff (s flag : Chars) (hne : flag ≠ []) :
    (pop_bool_flag s flag).2 = true ↔ boundedOcc flag s := by
  constructor
  · intro h
    unfold pop_bool_flag at h
    cases hf : (List.range s.length).find? (fun f => flagMatchAt flag s f) with
    | none => rw [hf] at h; simp at h
    | some f =>
      exact flagMatchAt_boundedOcc flag s f (by simpa using List.find?_some hf)
  · intro h
    obtain ⟨f, hmem, hmatch⟩ := boundedOcc_flagMatch flag s hne h
    unfold pop_bool_flag
    cases hf : (List.range s.length).find? (fun f => flagMatchAt flag s f) with
    | none =>
      have hnone := List.find?_eq_none.mp hf f hmem
      simp [hmatch] at hnone
    | some f' => rfl

theorem pop_bool_flag_not_found (s flag : Chars)
    (h : (pop_bool_flag s flag).2 = false) : (pop_bool_flag s flag).1 = s := by
  unfold pop_bool_flag at h ⊢
  cases hf : (List.range s.length).find? (fun f => flagMatchAt flag s f) with
  | none => rfl
  | some f => rw [hf] at h; simp at h

theorem dropWhile_eq_drop_length_takeWhile (p : α → Bool) (l : List α) :
    l.dropWhile p = l.drop (l.takeWhile p).length := by
  induction l with
  | nil => rfl
  | cons a as ih =>
    by_cases h : p a = true
    · simp [List.dropWhile_cons, List.takeWhile_cons, h, ih]
    · simp [List.dropWhile_cons, List.takeWhile_cons, h]

theorem head?_drop_eq_get? (l : List α) (n : Nat) : (l.drop n).head? = l.get? n := by
  induction l generalizing n with
  | nil => simp
  | cons a as ih =>
    cases n with
    | zero => simp
    | succ m => simpa using ih m

theorem find?_range_first {n f : Nat} {p : Nat → Bool}
    (h : (List.range n).find? p = some f) :
    ∀ g, g < f → p g = false := by
  obtain ⟨hpf, as, bs, happ, hall⟩ := List.find?_eq_some.mp h
  have hlen : as.length + (bs.length + 1) = n := by
    have hl := congrArg List.length happ
    simp [List.length_append] at hl
    omega
  have hfeq : f = as.length := by
    have h1 : (as ++ f :: bs).get? as.length = some f := by
      rw [List.get?_append_right (Nat.le_refl _), Nat.sub_self]
      rfl
    rw [← happ] at h1
    have h2 : (List.range n).get? as.length = some as.length := by
      rw [List.get?_eq_getElem?]
      exact List.getElem?_range (by omega)
    rw [h1] at h2
    simpa using h2
  intro g hg
  have hglt : g < as.length := by omega
  have h3 : (as ++ f :: bs).get? g = as.get? g := List.get?_append hglt
  rw [← happ] at h3
  have h4 : (List.range n).get? g = some g := by
    rw [List.get?_eq_getElem?]
    exact List.getElem?_range (by omega)
  rw [h4] at h3
  have hmem : g ∈ as := by
    obtain ⟨hlt, hget⟩ := List.get?_eq_some.mp h3.symm
    rw [← hget]
    exact List.get_mem as g hlt
  have h5 := hall g hmem
  simpa using h5

theorem pop_bool_flag_eq_of_find {s flag : Chars} {f : Nat}
    (hf : (List.range s.length).find? (fun g => flagMatchAt flag s g) = some f) :
    pop_bool_flag s flag
      = (s.take (f - ((s.take f).reverse.takeWhile isSpaceChar).length)
          ++ [' ']
          ++ s.drop (f + flag.length
              + ((s.drop (f + flag.length)).takeWhile isSpaceChar).length), true) := by
  unfold pop_bool_flag
  rw [hf]

theorem pop_bool_flag_strips (s flag : Chars)
    (h : (pop_bool_flag s flag).2 = true) :
    stripSpec flag s (pop_bool_flag s flag).1 := by
  cases hf : (List.range s.length).find? (fun g => flagMatchAt flag s g) with
  | none =>
    unfold pop_bool_flag at h
    rw [hf] at h
    simp at h
  | some f =>
    rw [pop_bool_flag_eq_of_find hf]
    have hmatch : flagMatchAt flag s f = true := by
      simpa using List.find?_some hf
    have hflt : f < s.length :=
      List.mem_range.mp (List.mem_of_find?_eq_some hf)
    have hfirst : ∀ g, g < f → flagMatchAt flag s g = false := by
      intro g hg
      simpa using find?_range_first hf g hg
    simp only [flagMatchAt, Bool.and_eq_true, Bool.or_eq_true, bne_iff_ne, ne_eq,
      beq_iff_eq] at hmatch
    obtain ⟨⟨⟨hf0, hsp⟩, hlead⟩, hend⟩ := hmatch
    set l := s.take f with hl_def
    have hllen : l.length = f := by
      simp [hl_def, List.length_take]
      omega
    set tw := l.reverse.takeWhile isSpaceChar with htw_def
    set dw := l.reverse.dropWhile isSpaceChar with hdw_def
    have hsplitrev : tw ++ dw = l.reverse := List.takeWhile_append_dropWhile _ _
    have hlsplit : l = dw.reverse ++ tw.reverse := by
      calc l = l.reverse.reverse := (List.reverse_reverse l).symm
        _ = (tw ++ dw).reverse := by rw [hsplitrev]
        _ = dw.reverse ++ tw.reverse := List.reverse_append _ _
    have hklen : tw.length + dw.length = f := by
      have hq := congrArg List.length hsplitrev
      simpa [hllen] using hq
    have hpre_len : dw.reverse.length = f - tw.length := by
      simp only [List.length_reverse]
      omega
    have htake : s.take (f - tw.length) = dw.reverse := by
      have h2 : l.take (f - tw.length) = s.take (f - tw.length) := by
        rw [hl_def, List.take_take, Nat.min_eq_left (by omega)]
      rw [← h2, hlsplit, List.take_left' hpre_len]
    cases hw : s.get? (f - 1) with
    | none => rw [hw] at hsp; simp [optSpace] at hsp
    | some w =>
    rw [hw] at hsp
    simp only [optSpace] at hsp
    have hrevhead : l.reverse.head? = some w := by
      rw [List.head?_reverse, List.getLast?_eq_get?, hllen, hl_def,
        List.get?_take (by omega)]
      exact hw
    have htw_ne : tw ≠ [] := by
      cases hlr : l.reverse with
      | nil => rw [hlr] at hrevhead; simp at hrevhead
      | cons x xs =>
        rw [hlr] at hrevhead
        simp only [List.head?_cons, Option.some.injEq] at hrevhead
        subst hrevhead
        rw [htw_def, hlr, List.takeWhile_cons, if_pos hsp]
        simp
    obtain ⟨t0, hdrop0⟩ := (leadsWith_iff flag (s.drop f)).mp hlead
    have ht0 : t0 = s.drop (f + flag.length) := by
      calc t0 = (flag ++ t0).drop flag.length := (List.drop_left _ _).symm
        _ = (s.drop f).drop flag.length := by rw [hdrop0]
        _ = s.drop (f + flag.length) := List.drop_drop _ _ _
    set r := s.drop (f + flag.length) with hr_def
    have hdropf : s.drop f = flag ++ r := by rw [hdrop0, ht0]
    set ws2 := r.takeWhile isSpaceChar with hws2_def
    set suf := r.dropWhile isSpaceChar with hsuf_def
    have hrsplit : ws2 ++ suf = r := List.takeWhile_append_dropWhile _ _
    have hsufdrop : s.drop (f + flag.length + ws2.length) = suf := by
      have h1 : s.drop (f + flag.length + ws2.length) = r.drop ws2.length := by
        rw [hr_def]
        exact (List.drop_drop _ _ _).symm
      rw [h1, hws2_def, ← dropWhile_eq_drop_length_takeWhile]
    refine ⟨dw.reverse, tw.reverse, ws2, suf, ?_, ?_, ?_, ?_, ?_, ?_, ?_, ?_, ?_⟩
    · conv_lhs => rw [← List.take_append_drop f s]
      rw [hdropf, ← hl_def, hlsplit, ← hrsplit]
      simp [List.append_assoc]
    · rw [htake, hsufdrop]
    · simpa using htw_ne
    · intro c hc
      rw [List.mem_reverse] at hc
      exact List.mem_takeWhile_imp hc
    · intro c hc
      exact List.mem_takeWhile_imp hc
    · intro h2
      rcases hend with hlen2 | hsp2
      · have hr_nil : r = [] := by
          rw [hr_def]
          exact List.drop_eq_nil_of_le (by omega)
        rw [hsuf_def, hr_nil]
        rfl
      · cases hw2 : s.get? (f + flag.length) with
        | none => rw [hw2] at hsp2; simp [optSpace] at hsp2
        | some w2 =>
          rw [hw2] at hsp2
          simp only [optSpace] at hsp2
          have hrhead : r.head? = some w2 := by
            rw [hr_def, head?_drop_eq_get?]
            exact hw2
          cases hr : r with
          | nil => rw [hr] at hrhead; simp at hrhead
          | cons x xs =>
            rw [hr] at hrhead
            simp only [List.head?_cons, Option.some.injEq] at hrhead
            subst hrhead
            rw [hws2_def, hr, List.takeWhile_cons, if_pos hsp2] at h2
            simp at h2
    · intro c hc
      rw [List.getLast?_reverse] at hc
      have hh := List.head?_dropWhile_not isSpaceChar l.reverse
      rw [← hdw_def, hc] at hh
      simpa using hh
    · intro c hc
      have hh := List.head?_dropWhile_not isSpaceChar r
      rw [← hsuf_def, hc] at hh
      simpa using hh
    · intro g hg
      apply hfirst
      simp only [List.length_reverse] at hg
      omega

theorem popOutputFlag_eq_of_find {q : Chars} {i : Nat}
    (hf : (List.range q.length).find? (outputMatchAt q) = some i) :
    popOutputFlag q
      = (q.take i ++ q.drop (i + outTok.length
            + ((q.drop (i + outTok.length)).takeWhile isSpaceChar).length
            + ((q.drop (i + outTok.length
                + ((q.drop (i + outTok.length)).takeWhile isSpaceChar).length)).takeWhile
                notSpaceChar).length),
         some ((q.drop (i + outTok.length
            + ((q.drop (i + outTok.length)).takeWhile isSpaceChar).length)).takeWhile
            notSpaceChar)) := by
  unfold popOutputFlag
  rw [hf]

theorem popOutputFlag_none (q : Chars)
    (h : (popOutputFlag q).2 = none) : (popOutputFlag q).1 = q := by
  unfold popOutputFlag at h ⊢
  cases hf : (List.range q.length).find? (outputMatchAt q) with
  | none => rfl
  | some i => rw [hf] at h; simp at h

theorem popOutputFlag_some (q v : Chars)
    (h : (popOutputFlag q).2 = some v) :
    outputSpec q v (popOutputFlag q).1 := by
  cases hf : (List.range q.length).find? (outputMatchAt q) with
  | none =>
    unfold popOutputFlag at h
    rw [hf] at h
    simp at h
  | some i =>
    have hmatch : outputMatchAt q i = true := List.find?_some hf
    have hilt : i < q.length :=
      List.mem_range.mp (List.mem_of_find?_eq_some hf)
    have hfirst : ∀ g, g < i → outputMatchAt q g = false := find?_range_first hf
    rw [popOutputFlag_eq_of_find hf] at h ⊢
    simp only [outputMatchAt, Bool.and_eq_true, bne_iff_ne, ne_eq] at hmatch
    obtain ⟨⟨hlead, hjne⟩, hvne⟩ := hmatch
    obtain ⟨t0, hdrop0⟩ := (leadsWith_iff outTok (q.drop i)).mp hlead
    have ht0 : t0 = q.drop (i + outTok.length) := by
      calc t0 = (outTok ++ t0).drop outTok.length := (List.drop_left _ _).symm
        _ = (q.drop i).drop outTok.length := by rw [hdrop0]
        _ = q.drop (i + outTok.length) := List.drop_drop _ _ _
    set r1 := q.drop (i + outTok.length) with hr1_def
    have hdropi : q.drop i = outTok ++ r1 := by rw [hdrop0, ht0]
    set ws := r1.takeWhile isSpaceChar with hws_def
    set r2 := r1.dropWhile isSpaceChar with hr2_def
    have hr1split : ws ++ r2 = r1 := List.takeWhile_append_dropWhile _ _
    have hr2drop : q.drop (i + outTok.length + ws.length) = r2 := by
      have h1 : q.drop (i + outTok.length + ws.length) = r1.drop ws.length := by
        rw [hr1_def]
        exact (List.drop_drop _ _ _).symm
      rw [h1, hws_def, ← dropWhile_eq_drop_length_takeWhile]
    rw [hr2drop] at h hvne ⊢
    set v2 := r2.takeWhile notSpaceChar with hv2_def
    set suf := r2.dropWhile notSpaceChar with hsuf_def
    have hr2split : v2 ++ suf = r2 := List.takeWhile_append_dropWhile _ _
    have hveq : v = v2 := by simpa using h.symm
    subst hveq
    have hsufdrop : q.drop (i + outTok.length + ws.length + v2.length) = suf := by
      have h1 : q.drop (i + outTok.length + ws.length + v2.length)
          = r2.drop v2.length := by
        rw [← hr2drop]
        exact (List.drop_drop _ _ _).symm
      rw [h1, hv2_def, ← dropWhile_eq_drop_length_takeWhile]
    refine ⟨q.take i, ws, suf, ?_, ?_, ?_, ?_, ?_, ?_, ?_, ?_⟩
    · conv_lhs => rw [← List.take_append_drop i q]
      rw [hdropi, ← hr1split, ← hr2split]
      simp [List.append_assoc]
    · rw [hsufdrop]
    · intro hcon
      rw [hcon] at hjne
      simp at hjne
    · intro c hc
      exact List.mem_takeWhile_imp hc
    · intro hcon
      rw [hcon] at hvne
      simp at hvne
    · intro c hc
      have := List.mem_takeWhile_imp hc
      rw [notSpaceChar] at this
      simpa using this
    · intro c hc
      have hh := List.head?_dropWhile_not notSpaceChar r2
      rw [← hsuf_def, hc] at hh
      simp only [notSpaceChar] at hh
      simpa using hh
    · intro g hg
      apply hfirst
      have : (q.take i).length = i := by
        simp [List.length_take]
        omega
      omega

theorem pyStrip_trim (t : Chars) : trimSpec t := by
  unfold trimSpec pyStrip
  set u := t.dropWhile isSpaceChar with hu_def
  set tw := u.reverse.takeWhile isSpaceChar with htw_def
  set dw := u.reverse.dropWhile isSpaceChar with hdw_def
  have hu_split : tw ++ dw = u.reverse := List.takeWhile_append_dropWhile _ _
  have hu_eq : u = dw.reverse ++ tw.reverse := by
    calc u = u.reverse.reverse := (List.reverse_reverse u).symm
      _ = (tw ++ dw).reverse := by rw [hu_split]
      _ = dw.reverse ++ tw.reverse := List.reverse_append _ _
  refine ⟨t.takeWhile isSpaceChar, tw.reverse, ?_, ?_, ?_, ?_, ?_⟩
  · conv_lhs => rw [← List.takeWhile_append_dropWhile (p := isSpaceChar) (l := t)]
    rw [← hu_def, hu_eq]
    simp [List.append_assoc]
  · intro c hc
    exact List.mem_takeWhile_imp hc
  · intro c hc
    rw [List.mem_reverse] at hc
    exact List.mem_takeWhile_imp hc
  · intro c hc
    cases hdr : dw.reverse with
    | nil => rw [hdr] at hc; simp at hc
    | cons x xs =>
      rw [hdr] at hc
      simp only [List.head?_cons, Option.some.injEq] at hc
      have hu_head : u.head? = some c := by
        rw [hu_eq, hdr, hc]
        rfl
      have hh := List.head?_dropWhile_not isSpaceChar t
      rw [← hu_def, hu_head] at hh
      simpa using hh
  · intro c hc
    rw [List.getLast?_reverse] at hc
    have hh := List.head?_dropWhile_not isSpaceChar u.reverse
    rw [← hdw_def, hc] at hh
    simpa using hh

/-- C6 (amended): flag extraction first removes one `--output <path>`
pair — the leftmost occurrence of the literal followed by whitespace and a
token, the value being the immediately following whitespace-delimited
token, the matched span removed with nothing inserted — then strips, in
the order `--json`, `--csv`, `--no-limit`, the first occurrence of each
boolean token exactly when it is preceded by at least one whitespace
character and followed by whitespace or the end of the string (never at
the very start of the string and never as a substring of a longer token),
removing the whole matched span and replacing it with a single space; a
step that finds no occurrence leaves the text unchanged; the remaining
text, trimmed of surrounding whitespace, is the clean SQL the safety
limit is applied to. -/
theorem C6_flag_extraction :
    (∀ q : Chars,
      (parseFlags q).1
          = (pop_bool_flag (pop_bool_flag (pop_bool_flag (popOutputFlag q).1
              (str "--json")).1 (str "--csv")).1 (str "--no-limit")).1
        ∧ (parseFlags q).2.output = (popOutputFlag q).2
        ∧ (parseFlags q).2.json
            = (pop_bool_flag (popOutputFlag q).1 (str "--json")).2
        ∧ (parseFlags q).2.csv
            = (pop_bool_flag (pop_bool_flag (popOutputFlag q).1 (str "--json")).1
                (str "--csv")).2
        ∧ (parseFlags q).2.noLimit
            = (pop_bool_flag (pop_bool_flag (pop_bool_flag (popOutputFlag q).1
                (str "--json")).1 (str "--csv")).1 (str "--no-limit")).2)
    ∧ (∀ q : Chars, cleanOf q = applyLimit (parseFlags q).2 (pyStrip (parseFlags q).1))
    ∧ (∀ q : Chars, (popOutputFlag q).2 = none → (popOutputFlag q).1 = q)
    ∧ (∀ q v : Chars, (popOutputFlag q).2 = some v →
        outputSpec q v (popOutputFlag q).1)
    ∧ (∀ s flag : Chars, flag ≠ [] →
        ((pop_bool_flag s flag).2 = true ↔ boundedOcc flag s))
    ∧ (∀ s flag : Chars, (pop_bool_flag s flag).2 = false →
        (pop_bool_flag s flag).1 = s)
    ∧ (∀ s flag : Chars, (pop_bool_flag s flag).2 = true →
        stripSpec flag s (pop_bool_flag s flag).1)
    ∧ (∀ t : Chars, trimSpec t) :=
  ⟨fun _ => ⟨rfl, rfl, rfl, rfl, rfl⟩,
   fun _ => rfl,
   popOutputFlag_none,
   popOutputFlag_some,
   pop_bool_flag_found_iff,
   pop_bool_flag_not_found,
   pop_bool_flag_strips,
   pyStrip_trim⟩

/-- C6 witness: the detection clause, the stripping clause, and the
output-pair clause each applied at a concrete query. -/
theorem C6_flag_extraction_witness :
    (pop_bool_flag (str "a --json") (str "--json")).2 = true
    ∧ stripSpec (str "--json") (str "a --json b")
        ((pop_bool_flag (str "a --json b") (str "--json")).1)
    ∧ outputSpec (str "x --output f.json y") (str "f.json")
        ((popOutputFlag (str "x --output f.json y")).1) :=
  ⟨(C6_flag_extraction.2.2.2.2.1 (str "a --json") (str "--json")
      (by decide)).mpr ⟨str "a", ' ', [], by decide, by decide, Or.inl rfl⟩,
   C6_flag_extraction.2.2.2.2.2.2.1 (str "a --json b") (str "--json") (by decide),
   C6_flag_extraction.2.2.2.1 (str "x --output f.json y") (str "f.json") (by decide)⟩

end Dais
